import Mathlib

/-!
Verification of the authentication and request-protection core of the
marketing-automation backend: JWT issuance and verification
(app/core/auth.py), password policy (app/core/auth.py), token blacklist and
rate limiter (app/core/redis_client.py), circuit breaker
(app/core/circuit_breaker.py), the user service
(app/services/user_service.py), the FastAPI dependencies (app/core/deps.py)
and the auth endpoints (app/api/v1/auth.py).

The Python code is shallowly embedded: timestamps are natural numbers of
seconds, the JWT signature check is a boolean field on the token value
(jwt.decode succeeds exactly on tokens produced with the same secret),
the Redis store is an association list threaded through the operations,
and store unavailability is an explicit boolean so that the
try/except-fail-open structure of the Python code is visible.
-/

namespace AuthCore

/-! ## Token service (app/core/auth.py) -/

/-- The claim set carried by a JWT: subject, expiry (unix seconds) and the
optional type discriminator written by create_refresh_token. -/
structure JwtPayload where
  sub : Option String
  exp : Option Nat
  type : Option String
deriving DecidableEq, Repr

/-- A signed token: its claims plus whether the signature verifies against
the server secret (jwt.decode succeeds iff the token was signed with the
same secret). -/
structure Token where
  payload : JwtPayload
  sigOk : Bool
deriving DecidableEq, Repr

/-- Embeds create_access_token: copies the given claims and overwrites the
exp claim with now + ttl; signs with the server secret. -/
def create_access_token (data : JwtPayload) (now ttl : Nat) : Token :=
  { payload := { data with exp := some (now + ttl) }, sigOk := true }

/-- Embeds create_refresh_token: copies the given claims and overwrites the
exp claim with now + ttl and the type claim with "refresh". -/
def create_refresh_token (data : JwtPayload) (now ttl : Nat) : Token :=
  { payload := { data with exp := some (now + ttl), type := some "refresh" },
    sigOk := true }

/-- Embeds verify_token: returns the payload, or none when the signature
fails, the type claim is not "refresh" while a refresh token was expected,
the exp claim is absent, or the expiry lies strictly in the past
(datetime.utcnow() > datetime.fromtimestamp(exp)). -/
def verify_token (now : Nat) (token : Token) (token_type : String) :
    Option JwtPayload :=
  if !token.sigOk then none
  else if token_type == "refresh" && token.payload.type != some "refresh" then
    none
  else
    match token.payload.exp with
    | none => none
    | some e => if e < now then none else some token.payload

/-! ## Password policy (app/core/auth.py) -/

/-- Number of the four character classes present in the password, exactly
as computed by the Python sums over islower/isupper/isdigit/not-isalnum
(iteration over the characters of the password). -/
def char_variety (password : String) : Nat :=
  (if password.toList.any Char.isLower then 1 else 0)
    + (if password.toList.any Char.isUpper then 1 else 0)
    + (if password.toList.any Char.isDigit then 1 else 0)
    + (if password.toList.any (fun c => !c.isAlphanum) then 1 else 0)

/-- Embeds get_password_strength_score. The Python function is annotated
-> int but computes score += char_variety * 12.5 in floating point, so the
value is modelled exactly as a rational: length points plus 25/2 per
character class, capped with min(score, 100). -/
def get_password_strength_score (password : String) : ℚ :=
  let length := password.length
  let lengthScore : ℚ :=
    (if 8 ≤ length then 25 else 0)
      + (if 12 ≤ length then 15 else 0)
      + (if 16 ≤ length then 10 else 0)
  min (lengthScore + (char_variety password : ℚ) * (25 / 2)) 100

/-- settings.PASSWORD_MIN_LENGTH -/
def password_min_length : Nat := 8

/-- settings.PASSWORD_MAX_LENGTH -/
def password_max_length : Nat := 128

/-- settings.PASSWORD_STRENGTH_THRESHOLD -/
def password_strength_threshold : ℚ := 60

/-- The minimum-length failure message of validate_password_strength with
settings.PASSWORD_MIN_LENGTH = 8 interpolated. -/
def minLengthMessage : String := "Password must be at least 8 characters long"

/-- The maximum-length failure message with PASSWORD_MAX_LENGTH = 128. -/
def maxLengthMessage : String :=
  "Password must be less than 128 characters long"

/-- The character-variety failure message of validate_password_strength. -/
def varietyMessage : String :=
  "Password must contain at least 3 of the following: lowercase letters, uppercase letters, numbers, special characters"

/-- The weakness message; the numeric score is interpolated by the Python
f-string, rendered here through toString on the rational. -/
def weaknessMessage (score : ℚ) : String :=
  "Password is too weak (score: " ++ toString score
    ++ "/60). Please choose a stronger password"

/-- The success message of validate_password_strength. -/
def successMessage : String := "Password meets security requirements"

/-- Embeds validate_password_strength: the checks run in source order
length-minimum, length-maximum, class variety, strength score. -/
def validate_password_strength (password : String) : Bool × String :=
  if password.length < password_min_length then
    (false, minLengthMessage)
  else if password_max_length < password.length then
    (false, maxLengthMessage)
  else if char_variety password < 3 then
    (false, varietyMessage)
  else if get_password_strength_score password < password_strength_threshold then
    (false, weaknessMessage (get_password_strength_score password))
  else
    (true, successMessage)

/-! ## Users and the user service (app/models/user.py, app/services/user_service.py) -/

/-- The columns of the user model that the auth flows read or write. -/
structure User where
  id : String
  email : String
  hashed_password : String
  is_active : Bool
  is_verified : Bool
  last_login_at : Option Nat
deriving DecidableEq, Repr

/-- The shape shared by the custom exceptions in app/utils/exceptions.py:
message, HTTP status code and machine-readable error code. -/
structure APIError where
  message : String
  status_code : Nat
  error_code : String
deriving DecidableEq, Repr

/-- InvalidCredentialsError with its default message. -/
def invalidCredentialsError : APIError :=
  { message := "Invalid email or password", status_code := 401,
    error_code := "INVALID_CREDENTIALS" }

/-- AccountInactiveError with its default message. -/
def accountInactiveError : APIError :=
  { message := "User account is inactive", status_code := 401,
    error_code := "ACCOUNT_INACTIVE" }

/-- email.lower().strip(): lowercase every character, then drop
whitespace from both ends. -/
def normalize_email (email : String) : String :=
  String.mk
    ((((email.toList.map Char.toLower).dropWhile Char.isWhitespace).reverse.dropWhile
        Char.isWhitespace).reverse)

/-- Embeds UserService.get_user_by_email: lookup by the lowercased and
trimmed email (the select on User.email == email.lower().strip()). -/
def get_user_by_email (db : List User) (email : String) : Option User :=
  db.find? (fun u => u.email == normalize_email email)

/-- Embeds UserService.get_user_by_id (select on User.id == user_id). -/
def get_user_by_id (db : List User) (user_id : String) : Option User :=
  db.find? (fun u => u.id == user_id)

/-- Embeds UserService.authenticate_user. Password hashing is bcrypt, an
external primitive: the check verify_password(plain, hashed) is passed in
as the function verify_pw. On success the user is returned with
last_login_at updated (update_last_login). -/
def authenticate_user (db : List User) (verify_pw : String → String → Bool)
    (email password : String) (now : Nat) : Except APIError User :=
  match get_user_by_email db email with
  | none => .error invalidCredentialsError
  | some user =>
    if !user.is_active then .error accountInactiveError
    else if !verify_pw password user.hashed_password then
      .error invalidCredentialsError
    else .ok { user with last_login_at := some now }

/-! ## Authorization dependency (app/core/deps.py) -/

/-- Outcome of the get_current_user FastAPI dependency: the resolved user
or a 401 with the given detail string. -/
inductive AuthzResult where
  | ok (user : User)
  | unauthorized (detail : String)
deriving DecidableEq, Repr

/-- Embeds deps.get_current_user: bearer credentials present, then
verify_token with token_type "access", then the sub claim (rejecting a
missing or falsy subject), then the database lookup and the active check.
The revocation store is not consulted anywhere in this dependency,
mirroring the source. -/
def get_current_user (db : List User) (now : Nat)
    (credentials : Option Token) : AuthzResult :=
  match credentials with
  | none => .unauthorized "Authentication required"
  | some token =>
    match verify_token now token "access" with
    | none => .unauthorized "Invalid or expired token"
    | some payload =>
      match payload.sub with
      | none => .unauthorized "Invalid token payload"
      | some user_id =>
        if user_id == "" then .unauthorized "Invalid token payload"
        else
          match get_user_by_id db user_id with
          | none => .unauthorized "User not found"
          | some user =>
            if !user.is_active then .unauthorized "User account is inactive"
            else .ok user

/-! ## Token blacklist (app/core/redis_client.py, TokenBlacklist) -/

/-- The revocation store: blacklist entries keyed by the raw token, each
with its absolute expiry instant (setex key ttl "1"). The boolean avail
models whether the Redis connection is up; every client call raises when
it is down. -/
abbrev BLStore := List (Token × Nat)

/-- Redis EXISTS on the blacklist key of the token, respecting entry
expiry; errors when the store is unavailable. -/
def redisExists (avail : Bool) (bl : BLStore) (token : Token) (now : Nat) :
    Except String Bool :=
  if avail then
    .ok (match bl.find? (fun e => decide (e.1 = token)) with
      | some e => decide (now < e.2)
      | none => false)
  else .error "Redis connection failed"

/-- Embeds TokenBlacklist.is_blacklisted: the try and except structure
returns false when the store raises (fail open). -/
def is_blacklisted (avail : Bool) (bl : BLStore) (token : Token)
    (now : Nat) : Bool :=
  match redisExists avail bl token now with
  | .ok b => b
  | .error _ => false

/-- Embeds TokenBlacklist.add_token: setex with the given ttl; returns
whether the write succeeded together with the resulting store (unchanged
when the store raises). -/
def add_token (avail : Bool) (bl : BLStore) (token : Token)
    (now ttl : Nat) : Bool × BLStore :=
  if avail then (true, (token, now + ttl) :: bl)
  else (false, bl)

/-! ## Rate limiter (app/core/redis_client.py, RateLimiter) -/

/-- One Redis counter: its integer value and its absolute expiry. -/
structure RLEntry where
  count : Nat
  expiresAt : Nat
deriving DecidableEq, Repr

/-- The key-value store backing the rate limiter. -/
abbrev RLStore := List (String × RLEntry)

/-- Association-list lookup. -/
def assocFind (st : RLStore) (key : String) : Option RLEntry :=
  match st.find? (fun e => e.1 == key) with
  | some e => some e.2
  | none => none

/-- Association-list update-or-insert. -/
def assocSet (st : RLStore) (key : String) (v : RLEntry) : RLStore :=
  match st with
  | [] => [(key, v)]
  | e :: rest => if e.1 == key then (key, v) :: rest else e :: assocSet rest key v

/-- Redis GET of a counter: some value while the key is alive, none once
the key is absent or its expiry has passed. -/
def storeGetCount (st : RLStore) (key : String) (now : Nat) : Option Nat :=
  match assocFind st key with
  | some e => if now < e.expiresAt then some e.count else none
  | none => none

/-- Redis TTL: seconds until expiry for a live key, -2 for a missing or
expired key. -/
def redisTtl (st : RLStore) (key : String) (now : Nat) : Int :=
  match assocFind st key with
  | some e => if now < e.expiresAt then ((e.expiresAt : Int) - now) else -2
  | none => -2

/-- The pipeline incr followed by expire(key, window): INCR creates a
missing or expired key at 1 and increments a live one; EXPIRE then stamps
the key with a fresh window. -/
def storeIncrExpire (st : RLStore) (key : String) (now window : Nat) :
    RLStore :=
  let c := (storeGetCount st key now).getD 0
  assocSet st key { count := c + 1, expiresAt := now + window }

/-- The info dictionary returned by RateLimiter.is_rate_limited, one
constructor per shape the Python code builds. -/
inductive RLInfo where
  | limitedInfo (current_count limit : Nat) (reset_time retry_after : Int)
  | allowedInfo (current_count limit remaining reset_time : Nat)
  | errorInfo (error : String)
deriving DecidableEq, Repr

/-- The rate-limit key for an action and identifier. -/
def rlKey (action identifier : String) : String :=
  "ratelimit:" ++ action ++ ":" ++ identifier

/-- Embeds RateLimiter.is_rate_limited: read the counter; at or above the
limit answer limited with the current TTL as retry_after without touching
the store; below the limit increment and re-stamp the window and answer
not limited; when the store raises, fail open with the error info. The
store resulting from the call is returned alongside the tuple. -/
def is_rate_limited (avail : Bool) (st : RLStore) (identifier : String)
    (limit window : Nat) (action : String) (now : Nat) :
    (Bool × RLInfo) × RLStore :=
  if !avail then ((false, .errorInfo "Redis connection failed"), st)
  else
    let key := rlKey action identifier
    let current_count := (storeGetCount st key now).getD 0
    if limit ≤ current_count then
      let ttl := redisTtl st key now
      ((true, .limitedInfo current_count limit ttl ttl), st)
    else
      let st1 := storeIncrExpire st key now window
      let new_count := current_count + 1
      ((false, .allowedInfo new_count limit (limit - new_count) window), st1)

/-- A sequence of rate-limit checks for one identifier and action, one at
each instant in the list, threading the store and collecting the limited
flags in order. -/
def rlRun (avail : Bool) (st : RLStore) (identifier : String)
    (limit window : Nat) (action : String) : List Nat → List Bool × RLStore
  | [] => ([], st)
  | t :: ts =>
    let r := is_rate_limited avail st identifier limit window action t
    let rest := rlRun avail r.2 identifier limit window action ts
    (r.1.1 :: rest.1, rest.2)

/-! ## Circuit breaker (app/core/circuit_breaker.py) -/

/-- The three circuit states. -/
inductive CircuitState where
  | closed
  | opened
  | halfOpen
deriving DecidableEq, Repr

/-- The mutable fields of a CircuitBreaker instance. -/
structure CircuitBreaker where
  failure_threshold : Nat
  recovery_timeout : Nat
  failure_count : Nat
  last_failure_time : Option Nat
  state : CircuitState
  total_calls : Nat
  successful_calls : Nat
  failed_calls : Nat
  circuit_opened_count : Nat
deriving DecidableEq, Repr

/-- A freshly constructed breaker: CLOSED with zeroed counters. -/
def mkCircuitBreaker (threshold timeout : Nat) : CircuitBreaker :=
  { failure_threshold := threshold, recovery_timeout := timeout,
    failure_count := 0, last_failure_time := none, state := .closed,
    total_calls := 0, successful_calls := 0, failed_calls := 0,
    circuit_opened_count := 0 }

/-- Embeds CircuitBreaker._should_attempt_reset. -/
def should_attempt_reset (cb : CircuitBreaker) (now : Nat) : Bool :=
  match cb.last_failure_time with
  | none => true
  | some t => cb.recovery_timeout ≤ now - t

/-- Embeds CircuitBreaker._on_success. -/
def on_success (cb : CircuitBreaker) : CircuitBreaker :=
  let cb := { cb with successful_calls := cb.successful_calls + 1 }
  match cb.state with
  | .halfOpen => { cb with state := .closed, failure_count := 0 }
  | .closed => { cb with failure_count := 0 }
  | .opened => cb

/-- Embeds CircuitBreaker._on_failure. -/
def on_failure (cb : CircuitBreaker) (now : Nat) : CircuitBreaker :=
  let cb := { cb with failed_calls := cb.failed_calls + 1,
                      failure_count := cb.failure_count + 1,
                      last_failure_time := some now }
  if cb.failure_threshold ≤ cb.failure_count then
    if cb.state ≠ .opened then
      { cb with state := .opened,
                circuit_opened_count := cb.circuit_opened_count + 1 }
    else cb
  else cb

/-- What the wrapped operation does when actually invoked. -/
inductive CallOutcome where
  | success
  | expectedFailure
  | unexpectedFailure
deriving DecidableEq, Repr

/-- What CircuitBreaker.call produces for its caller. -/
inductive CallResult where
  | ok
  | rejectedOpen
  | raisedExpected
  | raisedUnexpected
deriving DecidableEq, Repr

/-- Embeds CircuitBreaker.call at instant now, where outcome is what the
wrapped operation would do if invoked. Returns the result seen by the
caller, whether the wrapped operation was invoked, and the new breaker
state. -/
def cbCall (cb : CircuitBreaker) (now : Nat) (outcome : CallOutcome) :
    CallResult × Bool × CircuitBreaker :=
  let cb := { cb with total_calls := cb.total_calls + 1 }
  let attempt : Option CircuitBreaker :=
    match cb.state with
    | .opened =>
      if should_attempt_reset cb now then some { cb with state := .halfOpen }
      else none
    | _ => some cb
  match attempt with
  | none => (.rejectedOpen, false, cb)
  | some cb1 =>
    match outcome with
    | .success => (.ok, true, on_success cb1)
    | .expectedFailure => (.raisedExpected, true, on_failure cb1 now)
    | .unexpectedFailure => (.raisedUnexpected, true, cb1)

/-! ## Auth endpoints (app/api/v1/auth.py) -/

/-- Default access-token lifetime in seconds
(settings.ACCESS_TOKEN_EXPIRE_DAYS = 7 days). -/
def access_token_ttl : Nat := 7 * 24 * 60 * 60

/-- Default refresh-token lifetime in seconds
(settings.REFRESH_TOKEN_EXPIRE_DAYS = 30 days). -/
def refresh_token_ttl : Nat := 30 * 24 * 60 * 60

/-- The body of a successful token response. -/
structure TokenResponse where
  access_token : Token
  refresh_token : Token
  token_type : String
  expires_in : Nat
deriving DecidableEq, Repr

/-- Outcome of the refresh endpoint. -/
inductive RefreshResult where
  | ok (resp : TokenResponse)
  | unauthorized (detail : String)
deriving DecidableEq, Repr

/-- Embeds the refresh endpoint handler refresh_token of
app/api/v1/auth.py: verify the presented token with token_type refresh,
reject a missing or falsy sub claim, re-fetch the user and require it to
exist and be active, then mint a new access token for {"sub": str(user.id)}
and return the same refresh token. The revocation store is threaded
through unchanged because the handler never touches it. -/
def refresh_endpoint (db : List User) (bl : BLStore) (now : Nat)
    (refresh_tok : Token) : RefreshResult × BLStore :=
  match verify_token now refresh_tok "refresh" with
  | none => (.unauthorized "Invalid or expired refresh token", bl)
  | some payload =>
    match payload.sub with
    | none => (.unauthorized "Invalid token payload", bl)
    | some user_id =>
      if user_id == "" then (.unauthorized "Invalid token payload", bl)
      else
        match get_user_by_id db user_id with
        | none => (.unauthorized "User not found or inactive", bl)
        | some user =>
          if !user.is_active then
            (.unauthorized "User not found or inactive", bl)
          else
            (.ok { access_token :=
                     create_access_token
                       { sub := some user.id, exp := none, type := none }
                       now access_token_ttl,
                   refresh_token := refresh_tok,
                   token_type := "bearer",
                   expires_in := access_token_ttl }, bl)

/-- Outcome of the logout endpoint: the revocation store after the call,
or the 401 detail when the get_current_user dependency rejects the
request. -/
inductive LogoutResult where
  | ok (bl : BLStore)
  | unauthorized (detail : String)
deriving DecidableEq, Repr

/-- Embeds the logout endpoint handler logout_user of app/api/v1/auth.py:
the get_current_user dependency gates the request; then the access token
is re-verified and blacklisted with ttl = max(exp - now, 0), and the
optional refresh token likewise after verification as a refresh token. -/
def logout_endpoint (db : List User) (avail : Bool) (bl : BLStore)
    (now : Nat) (access_tok : Token) (refresh_tok : Option Token) :
    LogoutResult :=
  match get_current_user db now (some access_tok) with
  | .unauthorized d => .unauthorized d
  | .ok _ =>
    let bl1 :=
      match verify_token now access_tok "access" with
      | some payload => (add_token avail bl access_tok now
          (payload.exp.getD 0 - now)).2
      | none => bl
    let bl2 :=
      match refresh_tok with
      | none => bl1
      | some rt =>
        match verify_token now rt "refresh" with
        | some rp => (add_token avail bl1 rt now (rp.exp.getD 0 - now)).2
        | none => bl1
    .ok bl2

/-! ## Concrete scenario data -/

/-- An active, verified user for the revocation scenario. -/
def c1User : User :=
  { id := "u1", email := "a@b.com", hashed_password := "hash1",
    is_active := true, is_verified := true, last_login_at := none }

/-- The access token issued to c1User at instant 0. -/
def c1Access : Token :=
  create_access_token { sub := some "u1", exp := none, type := none } 0
    access_token_ttl

/-- The refresh token issued to c1User at instant 0. -/
def c1Refresh : Token :=
  create_refresh_token { sub := some "u1", exp := none, type := none } 0
    refresh_token_ttl

/-- The revocation store produced by logging c1User out at instant 10 with
both tokens presented. -/
def c1Bl : BLStore :=
  match logout_endpoint [c1User] true [] 10 c1Access (some c1Refresh) with
  | .ok bl => bl
  | .unauthorized _ => []

/-- Password verification modelled as equality of the plain and stored
strings, standing in for bcrypt in concrete scenarios. -/
def pwEq (plain hashed : String) : Bool := plain == hashed

/-- An active user for the login-indistinguishability scenario. -/
def c5ActiveUser : User :=
  { id := "u1", email := "a@b.com", hashed_password := "pw1",
    is_active := true, is_verified := true, last_login_at := none }

/-- An inactive user for the login-indistinguishability scenario. -/
def c5InactiveUser : User :=
  { id := "u2", email := "c@b.com", hashed_password := "pw2",
    is_active := false, is_verified := true, last_login_at := none }

/-- The credential records for the login-indistinguishability scenario. -/
def c5Db : List User := [c5ActiveUser, c5InactiveUser]

/-- One failing call through the breaker, keeping only the new state. -/
def cbFailStep (cb : CircuitBreaker) (t : Nat) : CircuitBreaker :=
  (cbCall cb t .expectedFailure).2.2

/-- A live rate-limit counter at value 1 that still has 30 seconds to
live at instant 0, for the TTL-reset counterexample. -/
def c3Store : RLStore := [(rlKey "login" "1.2.3.4", ⟨1, 30⟩)]

/-! ## Helper lemmas -/

/-- Updating a key and reading it back yields the written entry. -/
theorem assocFind_assocSet (st : RLStore) (key : String) (v : RLEntry) :
    assocFind (assocSet st key v) key = some v := by
  induction st with
  | nil => simp [assocSet, assocFind, List.find?]
  | cons e rest ih =>
    by_cases h : e.1 == key
    · simp [assocSet, h, assocFind, List.find?]
    · simp only [assocSet, h, if_false, Bool.false_eq_true]
      simpa [assocFind, List.find?, h] using ih

/-! ## Claim theorems -/

/-- Claim C1: the spec requires logout followed by authorize on the same
access token to be Unauthenticated and refresh to fail on a blacklisted
refresh token, but the code never consults the revocation store during
authorization or refresh. After a logout at instant 10 has stored both
tokens in the revocation store, at instant 20 both tokens are in the
store and unexpired, yet get_current_user resolves the user and the
refresh endpoint mints a fresh access token. -/
theorem C1_revocation_not_enforced :
    is_blacklisted true c1Bl c1Access 20 = true ∧
    is_blacklisted true c1Bl c1Refresh 20 = true ∧
    get_current_user [c1User] 20 (some c1Access) = .ok c1User ∧
    (refresh_endpoint [c1User] c1Bl 20 c1Refresh).1 =
      .ok { access_token :=
              create_access_token { sub := some "u1", exp := none,
                                    type := none } 20 access_token_ttl,
            refresh_token := c1Refresh, token_type := "bearer",
            expires_in := access_token_ttl } := by
  decide

/-- Claim C2: with failure_threshold 3 and recovery timeout T, three
consecutive expected failures drive the breaker CLOSED to OPEN; a fourth
call less than T after the last failure is rejected with the distinct
circuit-open result without invoking the wrapped operation; the first
call at least T after the last failure is let through (HALF_OPEN), and
its success closes the circuit with the failure count zeroed while its
failure reopens the circuit and restarts the recovery timer. -/
theorem C2_circuit_breaker_scenario (T t1 t2 t3 t4 t5 : Nat)
    (cb3 cb4 : CircuitBreaker) (o4 : CallOutcome)
    (h4 : t4 - t3 < T) (h5 : T ≤ t5 - t3)
    (hcb3 : cb3 =
      cbFailStep (cbFailStep (cbFailStep (mkCircuitBreaker 3 T) t1) t2) t3)
    (hcb4 : cb4 = (cbCall cb3 t4 o4).2.2) :
    (cbFailStep (cbFailStep (mkCircuitBreaker 3 T) t1) t2).state = .closed ∧
    cb3.state = .opened ∧ cb3.failure_count = 3 ∧
    cb3.last_failure_time = some t3 ∧
    (cbCall cb3 t4 o4).1 = .rejectedOpen ∧ (cbCall cb3 t4 o4).2.1 = false ∧
    cb4.state = .opened ∧ cb4.last_failure_time = some t3 ∧
    cb4.failure_count = 3 ∧
    (cbCall cb4 t5 .success).2.1 = true ∧
    (cbCall cb4 t5 .success).2.2.state = .closed ∧
    (cbCall cb4 t5 .success).2.2.failure_count = 0 ∧
    (cbCall cb4 t5 .expectedFailure).2.1 = true ∧
    (cbCall cb4 t5 .expectedFailure).2.2.state = .opened ∧
    (cbCall cb4 t5 .expectedFailure).2.2.last_failure_time = some t5 := by
  have e1 : cbFailStep (mkCircuitBreaker 3 T) t1 =
      { failure_threshold := 3, recovery_timeout := T, failure_count := 1,
        last_failure_time := some t1, state := .closed, total_calls := 1,
        successful_calls := 0, failed_calls := 1, circuit_opened_count := 0 } := by
    simp [cbFailStep, cbCall, mkCircuitBreaker, on_failure]
  have e2 : cbFailStep (cbFailStep (mkCircuitBreaker 3 T) t1) t2 =
      { failure_threshold := 3, recovery_timeout := T, failure_count := 2,
        last_failure_time := some t2, state := .closed, total_calls := 2,
        successful_calls := 0, failed_calls := 2, circuit_opened_count := 0 } := by
    rw [e1]
    simp [cbFailStep, cbCall, on_failure]
  have e3 : cb3 =
      { failure_threshold := 3, recovery_timeout := T, failure_count := 3,
        last_failure_time := some t3, state := .opened, total_calls := 3,
        successful_calls := 0, failed_calls := 3, circuit_opened_count := 1 } := by
    rw [hcb3, e2]
    simp [cbFailStep, cbCall, on_failure]
  have e4 : cbCall cb3 t4 o4 = (.rejectedOpen, false,
      { failure_threshold := 3, recovery_timeout := T, failure_count := 3,
        last_failure_time := some t3, state := .opened, total_calls := 4,
        successful_calls := 0, failed_calls := 3, circuit_opened_count := 1 }) := by
    rw [e3]
    simp [cbCall, should_attempt_reset, Nat.not_le.mpr h4]
  have e4' : cb4 =
      { failure_threshold := 3, recovery_timeout := T, failure_count := 3,
        last_failure_time := some t3, state := .opened, total_calls := 4,
        successful_calls := 0, failed_calls := 3, circuit_opened_count := 1 } := by
    rw [hcb4, e4]
  have e5s : cbCall cb4 t5 .success = (.ok, true,
      { failure_threshold := 3, recovery_timeout := T, failure_count := 0,
        last_failure_time := some t3, state := .closed, total_calls := 5,
        successful_calls := 1, failed_calls := 3, circuit_opened_count := 1 }) := by
    rw [e4']
    simp [cbCall, should_attempt_reset, h5, on_success]
  have e5f : cbCall cb4 t5 .expectedFailure = (.raisedExpected, true,
      { failure_threshold := 3, recovery_timeout := T, failure_count := 4,
        last_failure_time := some t5, state := .opened, total_calls := 5,
        successful_calls := 0, failed_calls := 4, circuit_opened_count := 2 }) := by
    rw [e4']
    simp [cbCall, should_attempt_reset, h5, on_failure]
  refine ⟨by rw [e2], by rw [e3], by rw [e3], by rw [e3], by rw [e4], by rw [e4],
    by rw [e4'], by rw [e4'], by rw [e4'], by rw [e5s], by rw [e5s], by rw [e5s],
    by rw [e5f], by rw [e5f], by rw [e5f]⟩

/-- Witness for C2 at threshold 3, timeout 30, failures at 0, 1, 2, the
rejected call at 10 and the trial call at 40. -/
theorem C2_circuit_breaker_scenario_witness :
    (10 - 2 < 30 ∧ 30 ≤ 40 - 2) ∧
    ((cbFailStep (cbFailStep (mkCircuitBreaker 3 30) 0) 1).state = .closed ∧
     (cbFailStep (cbFailStep (cbFailStep (mkCircuitBreaker 3 30) 0) 1) 2).state = .opened ∧
     (cbFailStep (cbFailStep (cbFailStep (mkCircuitBreaker 3 30) 0) 1) 2).failure_count = 3 ∧
     (cbFailStep (cbFailStep (cbFailStep (mkCircuitBreaker 3 30) 0) 1) 2).last_failure_time = some 2 ∧
     (cbCall (cbFailStep (cbFailStep (cbFailStep (mkCircuitBreaker 3 30) 0) 1) 2) 10 .success).1 = .rejectedOpen ∧
     (cbCall (cbFailStep (cbFailStep (cbFailStep (mkCircuitBreaker 3 30) 0) 1) 2) 10 .success).2.1 = false ∧
     ((cbCall (cbFailStep (cbFailStep (cbFailStep (mkCircuitBreaker 3 30) 0) 1) 2) 10 .success).2.2).state = .opened ∧
     ((cbCall (cbFailStep (cbFailStep (cbFailStep (mkCircuitBreaker 3 30) 0) 1) 2) 10 .success).2.2).last_failure_time = some 2 ∧
     ((cbCall (cbFailStep (cbFailStep (cbFailStep (mkCircuitBreaker 3 30) 0) 1) 2) 10 .success).2.2).failure_count = 3 ∧
     (cbCall ((cbCall (cbFailStep (cbFailStep (cbFailStep (mkCircuitBreaker 3 30) 0) 1) 2) 10 .success).2.2) 40 .success).2.1 = true ∧
     (cbCall ((cbCall (cbFailStep (cbFailStep (cbFailStep (mkCircuitBreaker 3 30) 0) 1) 2) 10 .success).2.2) 40 .success).2.2.state = .closed ∧
     (cbCall ((cbCall (cbFailStep (cbFailStep (cbFailStep (mkCircuitBreaker 3 30) 0) 1) 2) 10 .success).2.2) 40 .success).2.2.failure_count = 0 ∧
     (cbCall ((cbCall (cbFailStep (cbFailStep (cbFailStep (mkCircuitBreaker 3 30) 0) 1) 2) 10 .success).2.2) 40 .expectedFailure).2.1 = true ∧
     (cbCall ((cbCall (cbFailStep (cbFailStep (cbFailStep (mkCircuitBreaker 3 30) 0) 1) 2) 10 .success).2.2) 40 .expectedFailure).2.2.state = .opened ∧
     (cbCall ((cbCall (cbFailStep (cbFailStep (cbFailStep (mkCircuitBreaker 3 30) 0) 1) 2) 10 .success).2.2) 40 .expectedFailure).2.2.last_failure_time = some 40) :=
  ⟨⟨by decide, by decide⟩,
    C2_circuit_breaker_scenario 30 0 1 2 10 40
      (cbFailStep (cbFailStep (cbFailStep (mkCircuitBreaker 3 30) 0) 1) 2)
      ((cbCall (cbFailStep (cbFailStep (cbFailStep (mkCircuitBreaker 3 30) 0) 1) 2) 10 .success).2.2)
      .success (by decide) (by decide) rfl rfl⟩

/-- Claim C3 counterexample: the claim says an in-window increment leaves
the TTL unchanged, but the pipeline runs expire(key, window) on every
increment. With a counter at 1 that has 30 seconds left and window 60,
the check at instant 0 is not limited and the entry afterwards expires at
60, not 30: the TTL was reset. -/
theorem C3_ttl_reset_counterexample :
    redisTtl c3Store (rlKey "login" "1.2.3.4") 0 = 30 ∧
    (is_rate_limited true c3Store "1.2.3.4" 5 60 "login" 0).1.1 = false ∧
    assocFind (is_rate_limited true c3Store "1.2.3.4" 5 60 "login" 0).2
      (rlKey "login" "1.2.3.4") = some ⟨2, 60⟩ ∧
    redisTtl (is_rate_limited true c3Store "1.2.3.4" 5 60 "login" 0).2
      (rlKey "login" "1.2.3.4") 0 = 60 ∧
    (60 : Int) ≠ 30 := by
  decide

/-- Claim C3 as amended: when no live counter exists and the limit is
positive, the count is set to 1 with TTL = window and the request is not
limited; when a live count is below the limit, the count is incremented
and the TTL is reset to the full window (not left unchanged) and the
request is not limited; when the live count is at or above the limit the
result is limited, carries the current remaining TTL as retry_after, and
the store is untouched. Six calls with limit 5 inside one window give
five not-limited results and then one limited result with positive
retry-after. -/
theorem C3_rate_limit_amended (st : RLStore) (identifier action : String)
    (limit window now : Nat) :
    (storeGetCount st (rlKey action identifier) now = none → 0 < limit →
      is_rate_limited true st identifier limit window action now =
        ((false, .allowedInfo 1 limit (limit - 1) window),
         assocSet st (rlKey action identifier) ⟨1, now + window⟩)) ∧
    (∀ c, storeGetCount st (rlKey action identifier) now = some c → c < limit →
      is_rate_limited true st identifier limit window action now =
        ((false, .allowedInfo (c + 1) limit (limit - (c + 1)) window),
         assocSet st (rlKey action identifier) ⟨c + 1, now + window⟩)) ∧
    (∀ c, storeGetCount st (rlKey action identifier) now = some c → limit ≤ c →
      is_rate_limited true st identifier limit window action now =
        ((true, .limitedInfo c limit (redisTtl st (rlKey action identifier) now)
            (redisTtl st (rlKey action identifier) now)), st)) ∧
    ((rlRun true [] "1.2.3.4" 5 60 "login" [0, 1, 2, 3, 4, 5]).1 =
        [false, false, false, false, false, true] ∧
      (is_rate_limited true
          (rlRun true [] "1.2.3.4" 5 60 "login" [0, 1, 2, 3, 4]).2
          "1.2.3.4" 5 60 "login" 5).1.2 = .limitedInfo 5 5 59 59 ∧
      (0 : Int) < 59) := by
  refine ⟨?_, ?_, ?_, by decide⟩
  · intro habs hpos
    simp [is_rate_limited, storeIncrExpire, habs, Nat.not_le.mpr hpos]
  · intro c hc hlt
    simp [is_rate_limited, storeIncrExpire, hc, Nat.not_le.mpr hlt]
  · intro c hc hle
    simp [is_rate_limited, hc, hle]

/-- Witness for C3 as amended, instantiating the three branches at
concrete stores: the empty store, the live counter at 1 of c3Store, and a
counter already at the limit. -/
theorem C3_rate_limit_amended_witness :
    (is_rate_limited true [] "1.2.3.4" 5 60 "login" 0 =
      ((false, .allowedInfo 1 5 4 60),
       assocSet [] (rlKey "login" "1.2.3.4") ⟨1, 60⟩)) ∧
    (is_rate_limited true c3Store "1.2.3.4" 5 60 "login" 0 =
      ((false, .allowedInfo 2 5 3 60),
       assocSet c3Store (rlKey "login" "1.2.3.4") ⟨2, 60⟩)) ∧
    (is_rate_limited true [(rlKey "login" "1.2.3.4", ⟨5, 42⟩)] "1.2.3.4" 5 60
        "login" 0 =
      ((true, .limitedInfo 5 5 42 42), [(rlKey "login" "1.2.3.4", ⟨5, 42⟩)])) :=
  ⟨(C3_rate_limit_amended [] "1.2.3.4" "login" 5 60 0).1 (by decide) (by decide),
   (C3_rate_limit_amended c3Store "1.2.3.4" "login" 5 60 0).2.1 1 (by decide)
     (by decide),
   (C3_rate_limit_amended [(rlKey "login" "1.2.3.4", ⟨5, 42⟩)] "1.2.3.4" "login"
       5 60 0).2.2.1 5 (by decide) (by decide)⟩

/-- One rate-limit check never lets the stored counter for its key exceed
the limit it was checked against. -/
theorem rl_step_count_le (st : RLStore) (identifier action : String)
    (limit window now : Nat)
    (h : ∀ v, assocFind st (rlKey action identifier) = some v → v.count ≤ limit) :
    ∀ v, assocFind (is_rate_limited true st identifier limit window action now).2
        (rlKey action identifier) = some v → v.count ≤ limit := by
  intro v hv
  by_cases hc : limit ≤ (storeGetCount st (rlKey action identifier) now).getD 0
  · rw [show (is_rate_limited true st identifier limit window action now).2 = st by
      simp [is_rate_limited, hc]] at hv
    exact h v hv
  · rw [show (is_rate_limited true st identifier limit window action now).2 =
        assocSet st (rlKey action identifier)
          ⟨(storeGetCount st (rlKey action identifier) now).getD 0 + 1,
           now + window⟩ by
      simp [is_rate_limited, storeIncrExpire, hc]] at hv
    rw [assocFind_assocSet] at hv
    cases hv
    exact Nat.lt_of_not_le hc

/-- Any sequence of checks keeps the stored counter at or below the
limit. -/
theorem rlRun_count_le (identifier action : String) (limit window : Nat) :
    ∀ (times : List Nat) (st : RLStore),
      (∀ v, assocFind st (rlKey action identifier) = some v → v.count ≤ limit) →
      ∀ v, assocFind (rlRun true st identifier limit window action times).2
          (rlKey action identifier) = some v → v.count ≤ limit := by
  intro times
  induction times with
  | nil => intro st h; simpa [rlRun] using h
  | cons t ts ih =>
    intro st h
    simp only [rlRun]
    exact ih _ (rl_step_count_le st identifier action limit window t h)

/-- Claim C10: a limited check leaves the store untouched; a not-limited
check increments the counter for its key; a counter already at the limit
and still in its window yields limited and an unchanged store; and along
any sequence of checks the stored counter never exceeds the limit. -/
theorem C10_counter_never_exceeds_limit :
    (∀ (st : RLStore) (identifier action : String) (limit window now : Nat),
      (is_rate_limited true st identifier limit window action now).1.1 = true →
      (is_rate_limited true st identifier limit window action now).2 = st) ∧
    (∀ (st : RLStore) (identifier action : String) (limit window now : Nat),
      (is_rate_limited true st identifier limit window action now).1.1 = false →
      assocFind (is_rate_limited true st identifier limit window action now).2
          (rlKey action identifier) =
        some ⟨(storeGetCount st (rlKey action identifier) now).getD 0 + 1,
              now + window⟩) ∧
    (∀ (st : RLStore) (identifier action : String) (limit window now e : Nat),
      assocFind st (rlKey action identifier) = some ⟨limit, e⟩ → now < e →
      (is_rate_limited true st identifier limit window action now).1.1 = true ∧
      (is_rate_limited true st identifier limit window action now).2 = st) ∧
    (∀ (identifier action : String) (limit window : Nat) (times : List Nat)
        (st : RLStore),
      (∀ v, assocFind st (rlKey action identifier) = some v → v.count ≤ limit) →
      ∀ v, assocFind (rlRun true st identifier limit window action times).2
          (rlKey action identifier) = some v → v.count ≤ limit) := by
  refine ⟨?_, ?_, ?_, rlRun_count_le⟩
  · intro st identifier action limit window now h
    by_cases hc : limit ≤ (storeGetCount st (rlKey action identifier) now).getD 0
    · simp [is_rate_limited, hc]
    · exfalso
      simp [is_rate_limited, hc] at h
  · intro st identifier action limit window now h
    by_cases hc : limit ≤ (storeGetCount st (rlKey action identifier) now).getD 0
    · exfalso
      simp [is_rate_limited, hc] at h
    · simp [is_rate_limited, storeIncrExpire, hc, assocFind_assocSet]
  · intro st identifier action limit window now e he hnow
    have hc : storeGetCount st (rlKey action identifier) now = some limit := by
      simp [storeGetCount, he, hnow]
    constructor
    · simp [is_rate_limited, hc]
    · simp [is_rate_limited, hc]

/-- Witness for C10 at a counter at its limit 5, the empty store, and a
three-step run. -/
theorem C10_counter_never_exceeds_limit_witness :
    ((is_rate_limited true [(rlKey "login" "10.0.0.1", ⟨5, 60⟩)] "10.0.0.1" 5 60
        "login" 0).2 = [(rlKey "login" "10.0.0.1", ⟨5, 60⟩)]) ∧
    (assocFind (is_rate_limited true [] "10.0.0.1" 5 60 "login" 0).2
        (rlKey "login" "10.0.0.1") = some ⟨1, 60⟩) ∧
    ((is_rate_limited true [(rlKey "login" "10.0.0.1", ⟨5, 60⟩)] "10.0.0.1" 5 60
        "login" 0).1.1 = true) ∧
    ((3 : Nat) ≤ 5) :=
  ⟨C10_counter_never_exceeds_limit.1 [(rlKey "login" "10.0.0.1", ⟨5, 60⟩)]
     "10.0.0.1" "login" 5 60 0 (by decide),
   C10_counter_never_exceeds_limit.2.1 [] "10.0.0.1" "login" 5 60 0 (by decide),
   (C10_counter_never_exceeds_limit.2.2.1 [(rlKey "login" "10.0.0.1", ⟨5, 60⟩)]
      "10.0.0.1" "login" 5 60 0 60 (by decide) (by decide)).1,
   C10_counter_never_exceeds_limit.2.2.2 "10.0.0.1" "login" 5 60 [0, 1, 2] []
     (fun v hv => by simp [assocFind, List.find?] at hv) ⟨3, 62⟩ (by decide)⟩

/-- Claim C4: verify_token answers none, not an exception, exactly when
the signature fails, the exp claim is absent, the expiry is strictly in
the past, or a refresh token was expected and the type claim is not
"refresh"; a fresh refresh token verifies under expected type "access"
while an access token whose type claim is not "refresh" never verifies
under expected type "refresh". -/
theorem C4_verify_token_spec :
    (∀ (now : Nat) (t : Token) (ty : String),
      verify_token now t ty = none ↔
        (t.sigOk = false ∨ (ty = "refresh" ∧ t.payload.type ≠ some "refresh") ∨
         t.payload.exp = none ∨ ∃ e, t.payload.exp = some e ∧ e < now)) ∧
    (∀ (data : JwtPayload) (now ttl cur : Nat), cur ≤ now + ttl →
      verify_token cur (create_refresh_token data now ttl) "access" =
        some (create_refresh_token data now ttl).payload) ∧
    (∀ (data : JwtPayload) (now ttl cur : Nat), data.type ≠ some "refresh" →
      verify_token cur (create_access_token data now ttl) "refresh" = none) := by
  refine ⟨?_, ?_, ?_⟩
  · intro now t ty
    rcases t with ⟨⟨sub, exp, type⟩, sig⟩
    cases sig
    · simp [verify_token]
    · by_cases hty : ty = "refresh"
      · by_cases htp : type = some "refresh"
        · subst hty
          cases exp with
          | none => simp [verify_token, htp]
          | some e =>
            by_cases he : e < now
            · simp [verify_token, htp, he]
            · simp [verify_token, htp, he]
        · subst hty
          simp [verify_token, htp]
      · cases exp with
        | none => simp [verify_token, hty]
        | some e =>
          by_cases he : e < now
          · simp [verify_token, hty, he]
          · simp [verify_token, hty, he]
  · intro data now ttl cur h
    simp [verify_token, create_refresh_token, Nat.not_lt.mpr h]
  · intro data now ttl cur h
    simp [verify_token, create_access_token, h]

/-- Witness for C4: a refresh token issued at 0 with lifetime 100 passes
verification at 50 under expected type "access"; an access token with no
type claim fails at 50 under expected type "refresh". -/
theorem C4_verify_token_spec_witness :
    (verify_token 50
        (create_refresh_token { sub := some "u", exp := none, type := none } 0
          100) "access" =
      some (create_refresh_token { sub := some "u", exp := none, type := none }
          0 100).payload) ∧
    (verify_token 50
        (create_access_token { sub := some "u", exp := none, type := none } 0
          100) "refresh" = none) :=
  ⟨C4_verify_token_spec.2.1 { sub := some "u", exp := none, type := none } 0 100
     50 (by decide),
   C4_verify_token_spec.2.2 { sub := some "u", exp := none, type := none } 0 100
     50 (by decide)⟩

/-- Claim C5: a login whose email matches no record and a login against
an active account with a wrong password both fail with the identical
generic invalid-credentials error value (same code and message), while a
login against an inactive account fails with the distinct
account-inactive error. -/
theorem C5_login_failures_indistinguishable (db : List User)
    (vp : String → String → Bool) (e1 p1 e2 p2 : String) (u : User) (now : Nat)
    (h1 : get_user_by_email db e1 = none)
    (h2 : get_user_by_email db e2 = some u) (hact : u.is_active = true)
    (hpw : vp p2 u.hashed_password = false) :
    authenticate_user db vp e1 p1 now = .error invalidCredentialsError ∧
    authenticate_user db vp e2 p2 now = .error invalidCredentialsError ∧
    (∀ e3 p3 v, get_user_by_email db e3 = some v → v.is_active = false →
      authenticate_user db vp e3 p3 now = .error accountInactiveError) ∧
    invalidCredentialsError ≠ accountInactiveError := by
  refine ⟨?_, ?_, ?_, by decide⟩
  · simp [authenticate_user, h1]
  · simp [authenticate_user, h2, hact, hpw]
  · intro e3 p3 v h3 hin
    simp [authenticate_user, h3, hin]

/-- Witness for C5 on a store with one active and one inactive user: the
unknown-email run and the wrong-password run produce the same error
value, and the inactive-account run the distinct one. -/
theorem C5_login_failures_indistinguishable_witness :
    authenticate_user c5Db pwEq "nobody@b.com" "wrong" 0 =
      .error invalidCredentialsError ∧
    authenticate_user c5Db pwEq "a@b.com" "wrong" 0 =
      .error invalidCredentialsError ∧
    authenticate_user c5Db pwEq "c@b.com" "pw2" 0 =
      .error accountInactiveError ∧
    invalidCredentialsError ≠ accountInactiveError :=
  have h := C5_login_failures_indistinguishable c5Db pwEq "nobody@b.com" "wrong"
    "a@b.com" "wrong" c5ActiveUser 0 (by decide) (by decide) (by decide)
    (by decide)
  ⟨h.1, h.2.1, h.2.2.1 "c@b.com" "pw2" c5InactiveUser (by decide) (by decide),
   h.2.2.2⟩

/-- Claim C6: with the key-value store unavailable every raw store call
errors, yet the revocation check returns false (treated as not revoked)
and the rate-limit check returns not limited with the error info and an
untouched store; neither surfaces the error to its caller. -/
theorem C6_store_unavailable_fails_open (bl : BLStore) (tok : Token)
    (now : Nat) (st : RLStore) (identifier action : String)
    (limit window : Nat) :
    redisExists false bl tok now = .error "Redis connection failed" ∧
    is_blacklisted false bl tok now = false ∧
    is_rate_limited false st identifier limit window action now =
      ((false, .errorInfo "Redis connection failed"), st) :=
  ⟨rfl, rfl, rfl⟩

/-- Claim C7: the score of the all-lowercase eight-character password is
75/2 = 37.5, which is not an integer, although the Python signature
declares int; the length and class points themselves match the claimed
formula (25 length points plus one class worth 12.5). -/
theorem C7_score_not_integer :
    ("aaaaaaaa" : String).length = 8 ∧ char_variety "aaaaaaaa" = 1 ∧
    get_password_strength_score "aaaaaaaa" = 75 / 2 ∧
    (∀ n : ℤ, get_password_strength_score "aaaaaaaa" ≠ (n : ℚ)) := by
  have hl : ("aaaaaaaa" : String).length = 8 := by decide
  have hv : char_variety "aaaaaaaa" = 1 := by decide
  have hs : get_password_strength_score "aaaaaaaa" = 75 / 2 := by
    rw [get_password_strength_score, hl, hv]
    norm_num [min_def]
  refine ⟨hl, hv, hs, ?_⟩
  intro n hn
  rw [hs] at hn
  have h2 : (75 : ℚ) = n * 2 := by
    field_simp at hn
    linarith
  have h3 : (75 : ℤ) = n * 2 := by exact_mod_cast h2
  omega

/-- Claim C8 counterexample: the two-character single-class password
fails validation with the minimum-length message, not the class-variety
message, refuting the claim that fewer than three classes always yields
the variety message regardless of length. -/
theorem C8_variety_message_counterexample :
    char_variety "aa" < 3 ∧
    validate_password_strength "aa" = (false, minLengthMessage) ∧
    minLengthMessage ≠ varietyMessage := by
  decide

/-- Claim C8 as amended: the checks run in the order minimum length,
maximum length, class variety, score, and the first failing check
determines the message; in particular every password of admissible
length with fewer than three classes fails with the variety message. -/
theorem C8_check_order (p : String) :
    (p.length < password_min_length →
      validate_password_strength p = (false, minLengthMessage)) ∧
    (password_min_length ≤ p.length → password_max_length < p.length →
      validate_password_strength p = (false, maxLengthMessage)) ∧
    (password_min_length ≤ p.length → p.length ≤ password_max_length →
      char_variety p < 3 →
      validate_password_strength p = (false, varietyMessage)) ∧
    (password_min_length ≤ p.length → p.length ≤ password_max_length →
      3 ≤ char_variety p →
      get_password_strength_score p < password_strength_threshold →
      validate_password_strength p =
        (false, weaknessMessage (get_password_strength_score p))) ∧
    (password_min_length ≤ p.length → p.length ≤ password_max_length →
      3 ≤ char_variety p →
      password_strength_threshold ≤ get_password_strength_score p →
      validate_password_strength p = (true, successMessage)) := by
  refine ⟨?_, ?_, ?_, ?_, ?_⟩
  · intro h
    simp [validate_password_strength, h]
  · intro h1 h2
    simp [validate_password_strength, Nat.not_lt.mpr h1, h2]
  · intro h1 h2 h3
    simp [validate_password_strength, Nat.not_lt.mpr h1, Nat.not_lt.mpr h2, h3]
  · intro h1 h2 h3 h4
    simp [validate_password_strength, Nat.not_lt.mpr h1, Nat.not_lt.mpr h2,
      Nat.not_lt.mpr h3, h4]
  · intro h1 h2 h3 h4
    simp [validate_password_strength, Nat.not_lt.mpr h1, Nat.not_lt.mpr h2,
      Nat.not_lt.mpr h3, not_lt.mpr h4]

/-- Witness for C8 as amended: a short password gets the length message,
an eight-character single-class password gets the variety message, and a
strong password passes. -/
theorem C8_check_order_witness :
    validate_password_strength "aa" = (false, minLengthMessage) ∧
    validate_password_strength "aaaaaaaa" = (false, varietyMessage) ∧
    validate_password_strength "Str0ng!Pass" = (true, successMessage) :=
  ⟨(C8_check_order "aa").1 (by decide),
   (C8_check_order "aaaaaaaa").2.2.1 (by decide) (by decide) (by decide),
   (C8_check_order "Str0ng!Pass").2.2.2.2 (by decide) (by decide) (by decide)
     (by
       have hl : ("Str0ng!Pass" : String).length = 11 := by decide
       have hv : char_variety "Str0ng!Pass" = 4 := by decide
       rw [get_password_strength_score, hl, hv, password_strength_threshold]
       norm_num [min_def])⟩

/-- Claim C9: a refresh call with a valid unexpired refresh token whose
subject is an existing active user returns a new access token whose sub
claim equals the refresh token sub claim, returns the same refresh token
unchanged, leaves the revocation store untouched, and any previously
issued access token keeps verifying until its own expiry. -/
theorem C9_refresh_round_trip (db : List User) (bl : BLStore) (now : Nat)
    (tok : Token) (uid : String) (u : User) (e : Nat)
    (hsig : tok.sigOk = true)
    (hty : tok.payload.type = some "refresh")
    (hexp : tok.payload.exp = some e) (hnow : now ≤ e)
    (hsub : tok.payload.sub = some uid) (hne : uid ≠ "")
    (hu : get_user_by_id db uid = some u) (hact : u.is_active = true) :
    refresh_endpoint db bl now tok =
      (.ok { access_token := create_access_token
               { sub := some u.id, exp := none, type := none } now
               access_token_ttl,
             refresh_token := tok, token_type := "bearer",
             expires_in := access_token_ttl }, bl) ∧
    (create_access_token { sub := some u.id, exp := none, type := none } now
        access_token_ttl).payload.sub = tok.payload.sub ∧
    (∀ (oldTok : Token) (e2 cur : Nat), oldTok.sigOk = true →
      oldTok.payload.exp = some e2 → cur ≤ e2 →
      verify_token cur oldTok "access" = some oldTok.payload) := by
  have hid : u.id = uid := by
    have := List.find?_some hu
    simpa using this
  refine ⟨?_, ?_, ?_⟩
  · simp [refresh_endpoint, verify_token, hsig, hty, hexp, Nat.not_lt.mpr hnow,
      hsub, hne, hu, hact]
  · simp [create_access_token, hsub, hid]
  · intro oldTok e2 cur hs he hc
    simp [verify_token, hs, he, Nat.not_lt.mpr hc]

/-- Witness for C9: refreshing with the concrete refresh token of user
u1 at instant 100 mints the expected access token, returns the same
refresh token, keeps the store empty, and the old access token still
verifies at instant 50. -/
theorem C9_refresh_round_trip_witness :
    refresh_endpoint [c1User] [] 100 c1Refresh =
      (.ok { access_token := create_access_token
               { sub := some "u1", exp := none, type := none } 100
               access_token_ttl,
             refresh_token := c1Refresh, token_type := "bearer",
             expires_in := access_token_ttl }, []) ∧
    (create_access_token { sub := some "u1", exp := none, type := none } 100
        access_token_ttl).payload.sub = c1Refresh.payload.sub ∧
    verify_token 50 c1Access "access" = some c1Access.payload :=
  have h := C9_refresh_round_trip [c1User] [] 100 c1Refresh "u1" c1User
    refresh_token_ttl (by decide) (by decide) (by decide) (by decide)
    (by decide) (by decide) (by decide) (by decide)
  ⟨h.1, h.2.1, h.2.2 c1Access access_token_ttl 50 (by decide) (by decide)
    (by decide)⟩

end AuthCore
